import Mathlib

/-!
Shallow embedding of the vessel CPA library (Vessel.py).

The source is a single Python class, vessel, holding a position, a speed,
a heading and a velocity vector derived at construction time, with three
computational methods: cpa (closest point of approach between two vessels),
bearingfromdxdy (compass bearing of a displacement), and courses_to_collide
(a family of speed/heading pairs for a target placing it on a collision
course). Floating point numbers are modelled by real numbers; a float
division whose denominator is exactly zero (which in the source produces
NaN or infinity) is modelled by an Option that is none in that case.
-/

noncomputable section

namespace CpaLib

/-- np.deg2rad: degrees to radians. -/
def deg2rad (d : ℝ) : ℝ := d * Real.pi / 180

/-- np.arctan2 y x: the angle of the point (x, y), in the interval from
minus pi exclusive to pi inclusive, with arctan2 0 0 = 0, exactly the
convention of Complex.arg applied to the complex number x + y i. -/
def arctan2 (y x : ℝ) : ℝ := Complex.arg ⟨x, y⟩

/-- The Python float modulo: a % b = a - b * floor (a / b). -/
def pymod (a b : ℝ) : ℝ := a - b * ⌊a / b⌋

/-- np.arange start stop step: the values start + k * step for natural k,
of which there are the ceiling of (stop - start) / step, clipped at zero.
A zero step is an error in numpy; it is modelled by the empty list and is
never reached by the claims below. -/
def arange (start stop step : ℝ) : List ℝ :=
  if step = 0 then []
  else (List.range (⌈(stop - start) / step⌉).toNat).map fun k : ℕ => start + (k : ℝ) * step

/-- The vessel class: length, position, speed, heading and the velocity
vector V. The methods below only read pos and V, as the source does. -/
structure Vessel where
  length : ℝ
  pos : ℝ × ℝ
  speed : ℝ
  heading : ℝ
  V : ℝ × ℝ

/-- vessel.__init__: stores length, pos = (x, y), speed and heading as
given, and derives V = (speed * sin(deg2rad heading), speed * cos(deg2rad
heading)). No input is validated or normalized. -/
def vessel_init (length x y speed heading : ℝ) : Vessel :=
  { length := length
    pos := (x, y)
    speed := speed
    heading := heading
    V := (speed * Real.sin (deg2rad heading), speed * Real.cos (deg2rad heading)) }

/-- vessel.bearingfromdxdy: (np.arctan2(dx, dy) * 180 / pi + 360) % 360.
Note the source order of arguments: dx is the first argument of arctan2. -/
def bearingfromdxdy (dx dy : ℝ) : ℝ :=
  pymod (arctan2 dx dy * 180 / Real.pi + 360) 360

/-- vessel.cpa self vessel: returns (tcpa, Vesselcpa, OScpa, Rcpa, Bcpa).
Every line mirrors the source, including the defect in the second
component of OScpa, which reuses self.pos.1 in place of self.pos.2.
The result is none exactly when the denominator Vr . Vr is zero, the case
in which the float division of the source produces NaN. -/
def cpa (self vessel : Vessel) : Option (ℝ × (ℝ × ℝ) × (ℝ × ℝ) × ℝ × ℝ) :=
  let Vr1 := vessel.V.1 - self.V.1
  let Vr2 := vessel.V.2 - self.V.2
  let D1 := vessel.pos.1 - self.pos.1
  let D2 := vessel.pos.2 - self.pos.2
  if Vr1 ^ 2 + Vr2 ^ 2 = 0 then none
  else
    let tcpa := -(Vr1 * D1 + Vr2 * D2) / (Vr1 ^ 2 + Vr2 ^ 2)
    let Vesselcpa := (vessel.pos.1 + vessel.V.1 * tcpa, vessel.pos.2 + vessel.V.2 * tcpa)
    let OScpa := (self.pos.1 + self.V.1 * tcpa, self.pos.1 + self.V.2 * tcpa)
    let CPA1 := Vesselcpa.1 - OScpa.1
    let CPA2 := Vesselcpa.2 - OScpa.2
    let Rcpa := Real.sqrt (CPA1 ^ 2 + CPA2 ^ 2)
    let Bcpa := bearingfromdxdy CPA1 CPA2
    some (tcpa, Vesselcpa, OScpa, Rcpa, Bcpa)

/-- vessel.courses_to_collide self vessel: the source body reads the
externally scoped global identifier v1 on its last three lines, so the
embedding takes that global as an explicit extra argument. It also rebinds
the parameter N to 10 before use, exactly as the source line N = 10. does.
The result is none exactly when Dnorm is zero, the case in which the float
divisions of the source produce NaN or infinity. -/
def courses_to_collide (self vessel v1 : Vessel) (N minSpeed maxSpeed : ℝ) :
    Option (List ℝ × List ℝ) :=
  let D1 := vessel.pos.1 - self.pos.1
  let D2 := vessel.pos.2 - self.pos.2
  let Dnorm := Real.sqrt (D1 ^ 2 + D2 ^ 2)
  if Dnorm = 0 then none
  else
    let N := (10 : ℝ)
    let max_a := maxSpeed / Dnorm
    let min_a := minSpeed / Dnorm
    let a := arange min_a max_a ((max_a - min_a) / N)
    let Vt := a.map fun x => (-D1 * x + v1.V.1, -D2 * x + v1.V.2)
    let Speeds := Vt.map fun x => Real.sqrt (x.1 ^ 2 + x.2 ^ 2)
    let Headings := Vt.map fun x => bearingfromdxdy x.1 x.2
    some (Speeds, Headings)

/-- Concrete vessel for claim C3: velocity equal to that of degB. -/
def degA : Vessel := ⟨0, (0, 0), 0, 0, (1, 1)⟩

/-- Concrete vessel for claim C3: distinct position, same velocity. -/
def degB : Vessel := ⟨0, (3, 4), 0, 0, (1, 1)⟩

/-- Concrete ownship for the claim C1 witness. -/
def wA : Vessel := ⟨0, (0, 0), 0, 0, (0, 0)⟩

/-- Concrete target for the claim C1 witness. -/
def wB : Vessel := ⟨0, (1, 0), 0, 0, (1, 0)⟩

/-- Concrete ownship for claim C2: position (0, 5), at rest. -/
def bugA : Vessel := ⟨0, (0, 5), 0, 0, (0, 0)⟩

/-- Concrete target for claim C2. -/
def bugB : Vessel := ⟨0, (1, 5), 0, 0, (1, 0)⟩

/-- Concrete ownship for claims C5, C6 and C7: at the origin, at rest. -/
def colA : Vessel := ⟨0, (0, 0), 0, 0, (0, 0)⟩

/-- Concrete target for claims C5, C6 and C7: at unit distance. -/
def colB : Vessel := ⟨0, (1, 0), 0, 0, (0, 0)⟩

/-- Concrete externally scoped global v1 for claim C5: its velocity
(100, 0) differs from the velocity of the ownship colA. -/
def colG : Vessel := ⟨0, (0, 0), 0, 0, (100, 0)⟩

/-- Concrete ownship for claims C9 and C10: at the origin, at rest. -/
def swpA : Vessel := ⟨0, (0, 0), 0, 0, (0, 0)⟩

/-- Concrete target for claims C9 and C10: position (0, 5), velocity
(1, 0), so that the closest approach happens at time zero. -/
def swpB : Vessel := ⟨0, (0, 5), 0, 0, (1, 0)⟩

end CpaLib

namespace CpaLib

/-- Claim C8: construction stores position (x, y) and derives the velocity
(speed * sin(heading * pi / 180), speed * cos(heading * pi / 180)); every
real input is accepted, and speed, heading and length are stored exactly as
given, with no validation or normalization (a heading of 450 is kept as
450). -/
theorem vessel_init_spec (length x y speed heading : ℝ) :
    (vessel_init length x y speed heading).pos = (x, y) ∧
    (vessel_init length x y speed heading).V =
      (speed * Real.sin (heading * Real.pi / 180),
       speed * Real.cos (heading * Real.pi / 180)) ∧
    (vessel_init length x y speed heading).heading = heading ∧
    (vessel_init length x y speed heading).speed = speed ∧
    (vessel_init length x y speed heading).length = length :=
  ⟨rfl, rfl, rfl, rfl, rfl⟩

/-- Claim C3: on two vessels with identical velocity vectors the source
divides by Vr . Vr = 0, producing NaN under float semantics (modelled by
none); it raises no DegenerateRelativeVelocity condition and applies no
tcpa = 0 fallback, contrary to the claim. -/
theorem cpa_degenerate_no_fallback : cpa degA degB = none := by
  simp [cpa, degA, degB]

/-- Helper: the Python float modulo by a positive modulus lands in the
half open interval from 0 to the modulus. -/
theorem pymod_nonneg_lt (a b : ℝ) (hb : 0 < b) : 0 ≤ pymod a b ∧ pymod a b < b := by
  have hb0 : b ≠ 0 := ne_of_gt hb
  have h : pymod a b = b * Int.fract (a / b) := by
    unfold pymod Int.fract
    field_simp
  constructor
  · rw [h]
    exact mul_nonneg hb.le (Int.fract_nonneg _)
  · rw [h]
    calc b * Int.fract (a / b) < b * 1 := by
          exact mul_lt_mul_of_pos_left (Int.fract_lt_one _) hb
      _ = b := mul_one b

/-- Claim C4: for every real displacement (dx, dy), bearingfromdxdy
computes (arctan2 dx dy * 180 / pi + 360) mod 360 with the source argument
order arctan2(dx, dy), that is, the angle of the complex number dy + dx i,
and the result always lies in the interval from 0 inclusive to 360
exclusive. -/
theorem bearingfromdxdy_formula_range (dx dy : ℝ) :
    bearingfromdxdy dx dy =
      pymod (Complex.arg ⟨dy, dx⟩ * 180 / Real.pi + 360) 360 ∧
    0 ≤ bearingfromdxdy dx dy ∧ bearingfromdxdy dx dy < 360 :=
  ⟨rfl,
   (pymod_nonneg_lt (arctan2 dx dy * 180 / Real.pi + 360) 360 (by norm_num)).1,
   (pymod_nonneg_lt (arctan2 dx dy * 180 / Real.pi + 360) 360 (by norm_num)).2⟩

/-- Claim C1: whenever the relative velocity Vr = V_target - V_ownship has
nonzero squared norm, cpa succeeds and returns tcpa = -(Vr . D) / (Vr . Vr)
with D = P_target - P_ownship, and the target position at closest approach
P_target + V_target * tcpa. -/
theorem cpa_tcpa_target_formula (self vessel : Vessel)
    (h : (vessel.V.1 - self.V.1) ^ 2 + (vessel.V.2 - self.V.2) ^ 2 ≠ 0) :
    (cpa self vessel).map (fun r => (r.1, r.2.1)) =
      some (-((vessel.V.1 - self.V.1) * (vessel.pos.1 - self.pos.1) +
                (vessel.V.2 - self.V.2) * (vessel.pos.2 - self.pos.2)) /
              ((vessel.V.1 - self.V.1) ^ 2 + (vessel.V.2 - self.V.2) ^ 2),
            (vessel.pos.1 + vessel.V.1 *
              (-((vessel.V.1 - self.V.1) * (vessel.pos.1 - self.pos.1) +
                   (vessel.V.2 - self.V.2) * (vessel.pos.2 - self.pos.2)) /
                 ((vessel.V.1 - self.V.1) ^ 2 + (vessel.V.2 - self.V.2) ^ 2)),
             vessel.pos.2 + vessel.V.2 *
              (-((vessel.V.1 - self.V.1) * (vessel.pos.1 - self.pos.1) +
                   (vessel.V.2 - self.V.2) * (vessel.pos.2 - self.pos.2)) /
                 ((vessel.V.1 - self.V.1) ^ 2 + (vessel.V.2 - self.V.2) ^ 2)))) := by
  simp only [cpa]
  rw [if_neg h]
  rfl

/-- Witness for claim C1 at the concrete vessels wA and wB. -/
theorem cpa_tcpa_target_formula_witness :
    ((wB.V.1 - wA.V.1) ^ 2 + (wB.V.2 - wA.V.2) ^ 2 ≠ 0) ∧
    (cpa wA wB).map (fun r => (r.1, r.2.1)) =
      some (-((wB.V.1 - wA.V.1) * (wB.pos.1 - wA.pos.1) +
                (wB.V.2 - wA.V.2) * (wB.pos.2 - wA.pos.2)) /
              ((wB.V.1 - wA.V.1) ^ 2 + (wB.V.2 - wA.V.2) ^ 2),
            (wB.pos.1 + wB.V.1 *
              (-((wB.V.1 - wA.V.1) * (wB.pos.1 - wA.pos.1) +
                   (wB.V.2 - wA.V.2) * (wB.pos.2 - wA.pos.2)) /
                 ((wB.V.1 - wA.V.1) ^ 2 + (wB.V.2 - wA.V.2) ^ 2)),
             wB.pos.2 + wB.V.2 *
              (-((wB.V.1 - wA.V.1) * (wB.pos.1 - wA.pos.1) +
                   (wB.V.2 - wA.V.2) * (wB.pos.2 - wA.pos.2)) /
                 ((wB.V.1 - wA.V.1) ^ 2 + (wB.V.2 - wA.V.2) ^ 2)))) :=
  ⟨by norm_num [wA, wB], cpa_tcpa_target_formula wA wB (by norm_num [wA, wB])⟩

/-- Claim C2: at ownship bugA (position (0, 5), at rest) and target bugB
the code returns tcpa = -1 and OScpa = (0, 0), while the position own ship
actually advances to is (0, 5): the second component of OScpa reuses the
first position coordinate of own ship, so the returned y coordinate 0
differs from the correct value 5. -/
theorem cpa_ownship_y_component_bug :
    (cpa bugA bugB).map (fun r => (r.1, r.2.2.1)) = some (-1, (0, 0)) ∧
    bugA.pos.2 + bugA.V.2 * (-1) = 5 ∧ ((0 : ℝ) ≠ 5) := by
  refine ⟨?_, by norm_num [bugA], by norm_num⟩
  norm_num [cpa, bugA, bugB]

/-- Helper: bearingfromdxdy at the zero displacement evaluates to 0. -/
theorem bearingfromdxdy_zero : bearingfromdxdy 0 0 = 0 := by
  have h0 : arctan2 0 0 = 0 := by
    unfold arctan2
    have hz : (⟨0, 0⟩ : ℂ) = 0 := by
      simp [Complex.ext_iff]
    rw [hz, Complex.arg_zero]
  unfold bearingfromdxdy pymod
  rw [h0]
  norm_num

/-- Helper: a displacement whose euclidean norm is zero is the zero
displacement, so its bearing is 0. -/
theorem bearing_of_sqrt_zero (x y : ℝ) (h : Real.sqrt (x ^ 2 + y ^ 2) = 0) :
    bearingfromdxdy x y = 0 := by
  have h0 : (0 : ℝ) ≤ x ^ 2 + y ^ 2 := by positivity
  have hS : x ^ 2 + y ^ 2 = 0 := (Real.sqrt_eq_zero h0).mp h
  have hx : x = 0 := by nlinarith [sq_nonneg x, sq_nonneg y]
  have hy : y = 0 := by nlinarith [sq_nonneg x, sq_nonneg y]
  rw [hx, hy, bearingfromdxdy_zero]

/-- Helper: full evaluation of cpa with the roles of swpA and swpB
swapped; the two predicted positions coincide, so the range is 0 and the
bearing is taken at the zero displacement. -/
theorem cpa_swpB_swpA_eval :
    cpa swpB swpA = some (0, (0, 0), (0, 0), 0, bearingfromdxdy 0 0) := by
  norm_num [cpa, swpA, swpB, Real.sqrt_zero]

/-- Claim C10: bearingfromdxdy maps the zero displacement to 0 rather than
failing, and consequently every successful cpa result with range 0 reports
bearing 0. -/
theorem cpa_zero_range_zero_bearing (self vessel : Vessel) (t : ℝ) (p o : ℝ × ℝ)
    (r b : ℝ) (hc : cpa self vessel = some (t, p, o, r, b)) (hr : r = 0) :
    b = 0 ∧ bearingfromdxdy 0 0 = 0 := by
  refine ⟨?_, bearingfromdxdy_zero⟩
  simp only [cpa] at hc
  by_cases hd : (vessel.V.1 - self.V.1) ^ 2 + (vessel.V.2 - self.V.2) ^ 2 = 0
  · rw [if_pos hd] at hc
    exact absurd hc (by simp)
  · rw [if_neg hd] at hc
    simp only [Option.some_inj, Prod.mk.injEq] at hc
    obtain ⟨ht, hp, ho, hrr, hb⟩ := hc
    rw [← hb]
    exact bearing_of_sqrt_zero _ _ (by rw [hrr, hr])

/-- Witness for claim C10 at the concrete vessels swpB and swpA, whose
predicted positions at closest approach coincide. -/
theorem cpa_zero_range_zero_bearing_witness :
    cpa swpB swpA = some (0, (0, 0), (0, 0), 0, bearingfromdxdy 0 0) ∧
    (bearingfromdxdy 0 0 = 0 ∧ bearingfromdxdy 0 0 = 0) :=
  ⟨cpa_swpB_swpA_eval,
   cpa_zero_range_zero_bearing swpB swpA 0 (0, 0) (0, 0) 0 (bearingfromdxdy 0 0)
     cpa_swpB_swpA_eval rfl⟩

/-- Claim C9: swapping own ship and target does preserve tcpa at the
concrete pair swpA and swpB (both directions give tcpa = 0), but the range
at closest approach is 5 one way and 0 the other way, because the second
component of OScpa reuses the first position coordinate of the receiver;
so the ranges are not swap symmetric as the claim states. -/
theorem cpa_swap_range_asymmetric :
    (cpa swpA swpB).map (fun r => (r.1, r.2.2.2.1)) = some (0, 5) ∧
    (cpa swpB swpA).map (fun r => (r.1, r.2.2.2.1)) = some (0, 0) ∧
    (5 : ℝ) ≠ 0 := by
  have h25 : Real.sqrt 25 = 5 := by
    rw [show (25 : ℝ) = 5 ^ 2 by norm_num]
    exact Real.sqrt_sq (by norm_num)
  refine ⟨?_, ?_, by norm_num⟩
  · norm_num [cpa, swpA, swpB, h25]
  · rw [cpa_swpB_swpA_eval]
    rfl

/-- Helper: the number of samples produced by arange. -/
theorem arange_length (start stop step : ℝ) (h : step ≠ 0) :
    (arange start stop step).length = (⌈(stop - start) / step⌉).toNat := by
  unfold arange
  rw [if_neg h, List.length_map, List.length_range]

/-- Helper: the first sample of a nonempty arange is its start value. -/
theorem arange_head (start stop step : ℝ) (h : step ≠ 0)
    (hn : 0 < (⌈(stop - start) / step⌉).toNat) :
    (arange start stop step).head? = some start := by
  unfold arange
  rw [if_neg h]
  obtain ⟨n, hn2⟩ : ∃ n, (⌈(stop - start) / step⌉).toNat = n + 1 :=
    ⟨_, (Nat.succ_pred_eq_of_pos hn).symm⟩
  rw [hn2, List.range_succ_eq_map]
  simp

/-- Helper: the distance between the positions of colA and colB is one. -/
theorem colAB_dist :
    Real.sqrt ((colB.pos.1 - colA.pos.1) ^ 2 + (colB.pos.2 - colA.pos.2) ^ 2) = 1 := by
  rw [show ((colB.pos.1 - colA.pos.1) ^ 2 + (colB.pos.2 - colA.pos.2) ^ 2 : ℝ) = 1 by
    norm_num [colA, colB]]
  exact Real.sqrt_one

/-- Claim C6: called with N = 5 the solver still returns 10 speed and
heading pairs, because the source rebinds N to 10 before sampling, so the
requested count 5 is ignored. -/
theorem courses_to_collide_ignores_N :
    ∃ S H, courses_to_collide colA colB colA 5 2 25 = some (S, H) ∧
      S.length = 10 ∧ H.length = 10 ∧ (10 : ℕ) ≠ 5 := by
  simp only [courses_to_collide]
  rw [colAB_dist, if_neg one_ne_zero]
  refine ⟨_, _, rfl, ?_, ?_, by norm_num⟩
  · rw [List.length_map, List.length_map, arange_length _ _ _ (by norm_num)]
    rw [show ((25 / 1 - 2 / 1) / ((25 / 1 - 2 / 1) / 10) : ℝ) = 10 by norm_num]
    simp
  · rw [List.length_map, List.length_map, arange_length _ _ _ (by norm_num)]
    rw [show ((25 / 1 - 2 / 1) / ((25 / 1 - 2 / 1) / 10) : ℝ) = 10 by norm_num]
    simp

/-- Claim C7: called with minSpeed = 25 greater than maxSpeed = 2 the
solver does not fail: it silently returns 10 speed and heading pairs,
sampled with a negative step, instead of raising an InvalidRange error. -/
theorem courses_to_collide_no_invalid_range :
    ∃ S H, courses_to_collide colA colB colA 10 25 2 = some (S, H) ∧
      S.length = 10 ∧ H.length = 10 := by
  simp only [courses_to_collide]
  rw [colAB_dist, if_neg one_ne_zero]
  refine ⟨_, _, rfl, ?_, ?_⟩
  · rw [List.length_map, List.length_map, arange_length _ _ _ (by norm_num)]
    rw [show ((2 / 1 - 25 / 1) / ((2 / 1 - 25 / 1) / 10) : ℝ) = 10 by norm_num]
    simp
  · rw [List.length_map, List.length_map, arange_length _ _ _ (by norm_num)]
    rw [show ((2 / 1 - 25 / 1) / ((2 / 1 - 25 / 1) / 10) : ℝ) = 10 by norm_num]
    simp

/-- Claim C5: two calls of the solver with the same ownship and target
arguments but a different externally scoped vessel v1 give different
results: with v1 velocity (100, 0) the first candidate speed is 98, while
with v1 equal to the ownship (velocity (0, 0)) it is 2, so the candidate
velocities are taken from the external v1, not from the ownship
argument. -/
theorem courses_to_collide_uses_global :
    ((courses_to_collide colA colB colG 10 2 25).map fun r => r.1.head?) =
      some (some 98) ∧
    ((courses_to_collide colA colB colA 10 2 25).map fun r => r.1.head?) =
      some (some 2) ∧
    (98 : ℝ) ≠ 2 := by
  have hhead : (arange (2 / 1) (25 / 1) ((25 / 1 - 2 / 1) / 10)).head? = some (2 / 1) := by
    refine arange_head _ _ _ (by norm_num) ?_
    rw [show ((25 / 1 - 2 / 1) / ((25 / 1 - 2 / 1) / 10) : ℝ) = 10 by norm_num]
    simp
  refine ⟨?_, ?_, by norm_num⟩
  · simp only [courses_to_collide]
    rw [colAB_dist, if_neg one_ne_zero]
    simp only [Option.map_some']
    rw [List.head?_map, List.head?_map, hhead]
    simp only [Option.map_some']
    norm_num [colA, colB, colG]
    rw [show (9604 : ℝ) = 98 ^ 2 by norm_num]
    exact Real.sqrt_sq (by norm_num)
  · simp only [courses_to_collide]
    rw [colAB_dist, if_neg one_ne_zero]
    simp only [Option.map_some']
    rw [List.head?_map, List.head?_map, hhead]
    simp only [Option.map_some']
    norm_num [colA, colB]
    rw [show (4 : ℝ) = 2 ^ 2 by norm_num]
    exact Real.sqrt_sq (by norm_num)

end CpaLib
